import Mathlib

/-!
Shallow embedding of the Khmer News Summarization front-end (`src/app.py`)
and proofs of its specified properties.

The program is a single-page app: it fetches an article URL and extracts
paragraph text, posts the text to a remote summarization endpoint, stores
the returned summary in session state, and answers follow-up questions via
a generative-language provider.  Network interactions are modelled by
explicit outcome values supplied to the handlers; Streamlit display calls
are modelled as a list of emitted messages; the session state is threaded
explicitly.
-/

/-- A message rendered to the user, modelling the `st.error`, `st.warning`,
`st.info`, `st.success`, `st.code`, `st.write` and `st.subheader` calls. -/
inductive StMsg where
  | error (s : String)
  | warning (s : String)
  | info (s : String)
  | success (s : String)
  | code (s : String)
  | write (s : String)
  | subheader (s : String)
  deriving Repr, DecidableEq

/-- The Streamlit session state: `st.session_state.summary` and
`st.session_state.input_text`, both initialised to `""`. -/
structure SessionState where
  summary : String
  input_text : String
  deriving Repr, DecidableEq

/-- Outcome of the `requests.get(url, ...)` call in
`extract_main_text_from_url`.  `failure` models a transport-level
exception (connection error, timeout, DNS); `page` models a received
response, carrying its HTTP status, the string representation of the
`HTTPError` that `raise_for_status` would raise for this response, and
the page body abstracted as the list of `get_text(strip=True)` inputs of
its `<p>` elements, in document order. -/
inductive FetchOutcome where
  | failure (excMsg : String)
  | page (status : Nat) (excMsg : String) (paragraphs : List String)
  deriving Repr, DecidableEq

/-- `requests` `Response.raise_for_status` raises exactly when the status
code is a 4xx client error or a 5xx server error. -/
def raiseForStatus (status : Nat) : Bool :=
  decide (400 ≤ status ∧ status < 600)

/-- Python `str.strip()` (and BeautifulSoup `get_text(strip=True)` per
string): remove leading and trailing whitespace. -/
def pyStrip (s : String) : String :=
  String.mk (((s.data.dropWhile Char.isWhitespace).reverse.dropWhile Char.isWhitespace).reverse)

/-- The pure extraction heuristic of `extract_main_text_from_url`:
`paragraphs = [p.get_text(strip=True) for p in soup.find_all("p")]` then
`"\n".join(p for p in paragraphs if len(p) > 40)`.  `get_text(strip=True)`
is modelled as `pyStrip`. -/
def joinLongParagraphs (paragraphs : List String) : String :=
  let ps := paragraphs.map (fun p => pyStrip p)
  String.intercalate "\n" (ps.filter (fun p => 40 < p.length))

/-- `extract_main_text_from_url`: on a transport exception or a status for
which `raise_for_status` raises, reports `st.error` and returns `""`;
otherwise returns the filtered, newline-joined paragraph text. -/
def extract_main_text_from_url (o : FetchOutcome) : String × List StMsg :=
  match o with
  | .failure m => ("", [.error ("Error fetching URL: " ++ m)])
  | .page status m ps =>
      if raiseForStatus status then
        ("", [.error ("Error fetching URL: " ++ m)])
      else
        (joinLongParagraphs ps, [])

/-- Python `api_base.rstrip("/")`: remove every trailing `'/'`. -/
def pyRstripSlash (s : String) : String :=
  String.mk ((s.data.reverse.dropWhile (fun c => c = '/')).reverse)

/-- `endpoint = api_base.rstrip("/") + "/summarize"`. -/
def mkEndpoint (base : String) : String :=
  pyRstripSlash base ++ "/summarize"

/-- The JSON body of a summarization response, restricted to its
`summary` field: `none` models a missing key, `some v` a string value. -/
structure JsonBody where
  summary : Option String
  deriving Repr, DecidableEq

/-- Outcome of the `requests.post(endpoint, json=payload, timeout=120)`
call.  `failure` models a transport-level `RequestException` whose
`response` attribute is `None`; `response` models a received response,
carrying its status, the string representation of the `HTTPError` that
`raise_for_status` would raise for it, its raw body text, its decoded
JSON body (`none` when the body is not valid JSON), and the string
representation of the decode exception `resp.json()` would raise then. -/
inductive PostOutcome where
  | failure (excMsg : String)
  | response (status : Nat) (excMsg : String) (text : String)
      (json : Option JsonBody) (jsonExcMsg : String)
  deriving Repr, DecidableEq

/-- The `if summarize_clicked:` handler.  Validation first (`api_base`
falsy, then blank `input_text`); then the POST, `raise_for_status`, JSON
decoding, `data.get("summary", "").strip()`, and either the empty-summary
error or storing the summary in session state. -/
def summarize_clicked (apiBase inputText : String) (o : PostOutcome)
    (s : SessionState) : SessionState × List StMsg :=
  if apiBase = "" then
    (s, [.error "Please provide your FastAPI ngrok URL in the sidebar."])
  else if pyStrip inputText = "" then
    (s, [.warning "Please paste some text or fetch from URL first."])
  else
    let endpoint := mkEndpoint apiBase
    let infoMsg := StMsg.info ("Sending request to: `" ++ endpoint ++ "`")
    match o with
    | .failure m => (s, [infoMsg, .error ("Request error: " ++ m)])
    | .response status excMsg text json jsonExcMsg =>
        if raiseForStatus status then
          (s, [infoMsg, .error ("Request error: " ++ excMsg), .code text])
        else
          match json with
          | none => (s, [infoMsg, .error ("Request error: " ++ jsonExcMsg)])
          | some jb =>
              let summary := pyStrip (jb.summary.getD "")
              if summary = "" then
                (s, [infoMsg, .error "Backend returned an empty summary."])
              else
                ({ s with summary := summary },
                 [infoMsg, .subheader "📌 Summary (Khmer)", .write summary])

/-- The `if fetch_clicked:` handler: blank-URL warning, else extraction;
an empty extraction result reports errors and leaves the state alone, a
non-empty one is stored into `st.session_state.input_text`. -/
def fetch_clicked_handler (url : String) (o : FetchOutcome)
    (s : SessionState) : SessionState × List StMsg :=
  if pyStrip url = "" then
    (s, [.warning "Please paste a URL first."])
  else
    let r := extract_main_text_from_url o
    if r.1 = "" then
      (s, r.2 ++
        [.error "Could not extract text from this URL.",
         .info ("This website may be blocking automated access. " ++
           "Please open the article in your browser and paste the text manually.")])
    else
      ({ s with input_text := r.1 },
       r.2 ++ [.success "Extracted article text from URL."])

/-- The f-string prompt template of `ask_gemini_about_summary`, embedding
summary and question verbatim. -/
def gemini_prompt (summary question : String) : String :=
  "\nYou are a helpful assistant answering questions about the following Khmer news summary.\n\nSUMMARY:\n"
  ++ summary
  ++ "\n\nUSER QUESTION:\n"
  ++ question
  ++ "\n\nPlease answer in Khmer and keep the answer short, clear, and directly related to the summary above.\nIf the summary doesn't contain enough information to answer, say that you don't know based on this summary.\n"

/-- Outcome of `model.generate_content(prompt)`.  `reply none` models a
null response or a response without usable `text`; `reply (some t)` a
response whose `text` attribute is `t`; `raise` a provider exception,
which `ask_gemini_about_summary` lets propagate to its caller. -/
inductive ProviderOutcome where
  | reply (t : Option String)
  | raise (excMsg : String)
  deriving Repr, DecidableEq

/-- The fixed Khmer fallback answer returned when the provider yields no
text ("cannot answer from this summary"). -/
def geminiFallback : String := "មិនអាចឆ្លើយបានពីសង្ខេបនេះទេ។"

/-- `ask_gemini_about_summary`: builds the prompt, calls the provider on
it, and returns the fallback when `not response or not response.text`,
else the trimmed response text.  A provider exception propagates, which
the `Except` error constructor models. -/
def ask_gemini_about_summary (apiKey modelName summary question : String)
    (provider : String → ProviderOutcome) : Except String String :=
  let prompt := gemini_prompt summary question
  match provider prompt with
  | .raise m => .error m
  | .reply none => .ok geminiFallback
  | .reply (some t) => if t = "" then .ok geminiFallback else .ok (pyStrip t)

/-- The Gemini Q&A section of the page: rendered only when
`st.session_state.summary` is truthy; the `ask_clicked` handler then
validates the API key and the question before calling
`ask_gemini_about_summary`, catching any exception.  The returned `Bool`
records whether a provider call was made. -/
def ask_section (storedSummary geminiKey modelName question : String)
    (provider : String → ProviderOutcome) : List StMsg × Bool :=
  if storedSummary = "" then
    ([], false)
  else if geminiKey = "" then
    ([.error "Please set your Gemini API key (Streamlit Secrets or sidebar)."], false)
  else if pyStrip question = "" then
    ([.warning "Please type a question first."], false)
  else
    match ask_gemini_about_summary geminiKey modelName storedSummary question provider with
    | .ok answer => ([.subheader "🧠 Gemini's Answer", .write answer], true)
    | .error m => ([.error ("Error calling Gemini API: " ++ m)], true)

/-! ## Shared lemmas -/

theorem string_data_append (a b : String) : (a ++ b).data = a.data ++ b.data := by
  cases a; cases b; rfl

theorem dropWhile_slash_head (l : List Char) :
    (l.dropWhile (fun c => c = '/')).head? ≠ some '/' := by
  induction l with
  | nil => simp
  | cons a t ih =>
      by_cases h : a = '/'
      · simpa [List.dropWhile_cons, h] using ih
      · simp [List.dropWhile_cons, h]

theorem raiseForStatus_false {status : Nat} (h : status < 400) :
    raiseForStatus status = false := by
  simp [raiseForStatus]
  omega

theorem raiseForStatus_true {status : Nat} (h1 : 400 ≤ status) (h2 : status < 600) :
    raiseForStatus status = true := by
  simp [raiseForStatus]
  omega

/-! ## Claims -/

/-- C1: for every fetched HTML page, `extract_main_text_from_url` returns
exactly the newline-joined concatenation of the stripped paragraph texts
of length strictly greater than 40, in document order; no paragraph of
stripped length ≤ 40 is among the joined paragraphs, and when none
qualifies the result is the empty string. -/
theorem extract_filters_short_paragraphs (ps : List String) (m : String) :
    (extract_main_text_from_url (.page 200 m ps)).1 =
      String.intercalate "\n" ((ps.map pyStrip).filter (fun p => 40 < p.length))
    ∧ (∀ p ∈ ps, (pyStrip p).length ≤ 40 →
        pyStrip p ∉ (ps.map pyStrip).filter (fun p => 40 < p.length))
    ∧ ((ps.map pyStrip).filter (fun p => 40 < p.length) = [] →
        (extract_main_text_from_url (.page 200 m ps)).1 = "") := by
  refine ⟨?_, ?_, ?_⟩
  · simp [extract_main_text_from_url, raiseForStatus, joinLongParagraphs]
  · intro p _ hle hmem
    have h40 := (List.mem_filter.mp hmem).2
    simp at h40
    omega
  · intro h
    simp [extract_main_text_from_url, raiseForStatus, joinLongParagraphs, h]
    rfl

theorem extract_filters_short_paragraphs_witness :
    (extract_main_text_from_url (.page 200 "" ["Too short.", "  Nav  "])).1 = ""
    ∧ (extract_main_text_from_url (.page 200 ""
        ["Too short.",
         "This paragraph is comfortably longer than forty characters in total.",
         "A second qualifying paragraph also exceeding the forty character bar."])).1 =
      "This paragraph is comfortably longer than forty characters in total.\n" ++
        "A second qualifying paragraph also exceeding the forty character bar." := by
  constructor
  · exact (extract_filters_short_paragraphs ["Too short.", "  Nav  "] "").2.2 (by decide)
  · have h := (extract_filters_short_paragraphs
      ["Too short.",
       "This paragraph is comfortably longer than forty characters in total.",
       "A second qualifying paragraph also exceeding the forty character bar."] "").1
    rw [h]
    decide

/-- C2 counterexample: a 304 Not Modified response is non-2xx, yet
`raise_for_status` does not raise for it, so `extract_main_text_from_url`
processes the body as a success: it returns non-empty text and reports no
error, contradicting the claim that every non-2xx status yields the empty
string with an error report. -/
theorem fetch_non2xx_counterexample :
    extract_main_text_from_url (.page 304 "304 Not Modified"
        ["This cached page body still contains a qualifying long paragraph."]) =
      ("This cached page body still contains a qualifying long paragraph.", [])
    ∧ ("This cached page body still contains a qualifying long paragraph." : String) ≠ "" := by
  constructor
  · decide
  · decide

/-- C2 (amended): on a transport-level failure, or on a response whose
status is 4xx or 5xx, `extract_main_text_from_url` returns the empty
string and reports the underlying cause via an `st.error` message. -/
theorem fetch_failure_empty_and_reported (o : FetchOutcome)
    (h : (∃ m, o = .failure m) ∨
         (∃ status m ps, o = .page status m ps ∧ 400 ≤ status ∧ status < 600)) :
    ∃ cause, extract_main_text_from_url o =
      ("", [.error ("Error fetching URL: " ++ cause)]) := by
  rcases h with ⟨m, rfl⟩ | ⟨status, m, ps, rfl, h1, h2⟩
  · exact ⟨m, rfl⟩
  · refine ⟨m, ?_⟩
    simp [extract_main_text_from_url, raiseForStatus_true h1 h2]

theorem fetch_failure_empty_and_reported_witness :
    ∃ cause, extract_main_text_from_url (.page 500 "500 Server Error" ["page body"]) =
      ("", [.error ("Error fetching URL: " ++ cause)]) :=
  fetch_failure_empty_and_reported (.page 500 "500 Server Error" ["page body"])
    (Or.inr ⟨500, "500 Server Error", ["page body"], rfl, by decide, by decide⟩)

/-- C3: the summarize endpoint is the base with all trailing slashes
removed followed by the fixed `/summarize` segment; both quoted examples
hold, and the stripped base never ends in a slash, so the joined path has
exactly one slash at the boundary. -/
theorem endpoint_has_single_slash (base : String) :
    mkEndpoint "https://x/" = "https://x/summarize"
    ∧ mkEndpoint "https://x" = "https://x/summarize"
    ∧ mkEndpoint base = pyRstripSlash base ++ "/summarize"
    ∧ (pyRstripSlash base).data.getLast? ≠ some '/' := by
  refine ⟨by decide, by decide, rfl, ?_⟩
  show ((base.data.reverse.dropWhile (fun c => c = '/')).reverse).getLast? ≠ some '/'
  rw [List.getLast?_reverse]
  exact dropWhile_slash_head _

theorem endpoint_has_single_slash_witness :
    mkEndpoint "https://x///" = "https://x/summarize" := by
  have h := (endpoint_has_single_slash "https://x///").2.2.1
  rw [h]
  decide

/-- C4 counterexample: a 2xx response whose `summary` field is
whitespace-only trims to the empty string, so the handler takes the
empty-summary error path and leaves the previous summary in place; the
stored summary is not the trimmed field value. -/
theorem stored_summary_trim_counterexample :
    (summarize_clicked "https://x" "Some article text."
        (.response 200 "" "" (some ⟨some "   "⟩) "") ⟨"old summary", ""⟩).1.summary
      = "old summary"
    ∧ ("old summary" : String) ≠ pyStrip "   " := by
  constructor
  · decide
  · decide

/-- C4 (amended): for every 2xx summarization response whose JSON body
contains a string `summary` field with non-empty trimmed value, the
stored summary is exactly that value with surrounding whitespace
stripped, and it is displayed. -/
theorem stored_summary_is_trimmed (apiBase inputText excMsg text jsonExcMsg v : String)
    (status : Nat) (s : SessionState)
    (hBase : apiBase ≠ "") (hText : pyStrip inputText ≠ "")
    (hStatus : 200 ≤ status ∧ status < 300) (hv : pyStrip v ≠ "") :
    summarize_clicked apiBase inputText
        (.response status excMsg text (some ⟨some v⟩) jsonExcMsg) s =
      ({ s with summary := pyStrip v },
       [.info ("Sending request to: `" ++ mkEndpoint apiBase ++ "`"),
        .subheader "📌 Summary (Khmer)", .write (pyStrip v)]) := by
  have hrs : raiseForStatus status = false := raiseForStatus_false (by omega)
  simp [summarize_clicked, hBase, hText, hrs, hv]

theorem stored_summary_is_trimmed_witness :
    summarize_clicked "https://x" "Some article text."
        (.response 200 "" "" (some ⟨some "  hello  "⟩) "") ⟨"", ""⟩ =
      (⟨"hello", ""⟩,
       [.info "Sending request to: `https://x/summarize`",
        .subheader "📌 Summary (Khmer)", .write "hello"]) := by
  have h := stored_summary_is_trimmed "https://x" "Some article text." "" "" "" "  hello  "
    200 ⟨"", ""⟩ (by decide) (by decide) (by decide) (by decide)
  rw [h]
  decide

/-- C5: a 2xx response whose `summary` field is the empty string or
absent reports the fixed empty-summary error, leaves the session state
(previously stored summary included) unchanged, and that error message is
distinct from every transport/HTTP error message the handler can emit. -/
theorem empty_summary_error_preserves_state (apiBase inputText excMsg text jsonExcMsg : String)
    (sf : Option String) (status : Nat) (s : SessionState)
    (hBase : apiBase ≠ "") (hText : pyStrip inputText ≠ "")
    (hStatus : 200 ≤ status ∧ status < 300)
    (hsf : sf = some "" ∨ sf = none) :
    summarize_clicked apiBase inputText
        (.response status excMsg text (some ⟨sf⟩) jsonExcMsg) s =
      (s, [.info ("Sending request to: `" ++ mkEndpoint apiBase ++ "`"),
           .error "Backend returned an empty summary."])
    ∧ (∀ m, StMsg.error "Backend returned an empty summary."
        ≠ StMsg.error ("Request error: " ++ m)) := by
  have hrs : raiseForStatus status = false := raiseForStatus_false (by omega)
  have hps : pyStrip "" = "" := rfl
  constructor
  · rcases hsf with rfl | rfl
    · simp [summarize_clicked, hBase, hText, hrs, hps]
    · simp [summarize_clicked, hBase, hText, hrs, hps]
  · intro m h
    injection h with h
    have hd : ("Backend returned an empty summary.").data.head?
        = ("Request error: " ++ m).data.head? := by rw [h]
    rw [string_data_append] at hd
    have h1 : ("Backend returned an empty summary.").data.head? = some 'B' := rfl
    have h2 : ("Request error: ".data ++ m.data).head? = some 'R' := rfl
    rw [h1, h2] at hd
    exact absurd hd (by decide)

theorem empty_summary_error_preserves_state_witness :
    summarize_clicked "https://x" "Some article text."
        (.response 200 "" "" (some ⟨some ""⟩) "") ⟨"previous summary", "kept"⟩ =
      (⟨"previous summary", "kept"⟩,
       [.info "Sending request to: `https://x/summarize`",
        .error "Backend returned an empty summary."]) := by
  have h := (empty_summary_error_preserves_state "https://x" "Some article text." "" "" ""
    (some "") 200 ⟨"previous summary", "kept"⟩
    (by decide) (by decide) (by decide) (Or.inl rfl)).1
  rw [h]
  decide

/-- C6 counterexample: a 300 Multiple Choices response is non-2xx, yet
`raise_for_status` does not raise for it; when its body carries a
non-empty `summary` the handler stores that summary, contradicting the
claim that no summary is stored on a non-2xx status. -/
theorem non2xx_stores_summary_counterexample :
    (summarize_clicked "https://x" "Some article text."
        (.response 300 "300 Multiple Choices" "raw body"
          (some ⟨some "A summary delivered with a 300 status."⟩) "")
        ⟨"", ""⟩).1.summary = "A summary delivered with a 300 status."
    ∧ ("A summary delivered with a 300 status." : String) ≠ "" := by
  constructor
  · decide
  · decide

/-- C6 (amended): for every summarize call against a backend answering
with a 4xx or 5xx status, the handler emits an HTTP error message and
surfaces the response body in a code block, and the session state — the
stored summary in particular — is unchanged. -/
theorem http_error_shows_body_preserves_state (apiBase inputText excMsg text jsonExcMsg : String)
    (json : Option JsonBody) (status : Nat) (s : SessionState)
    (hBase : apiBase ≠ "") (hText : pyStrip inputText ≠ "")
    (h4 : 400 ≤ status) (h6 : status < 600) :
    summarize_clicked apiBase inputText
        (.response status excMsg text json jsonExcMsg) s =
      (s, [.info ("Sending request to: `" ++ mkEndpoint apiBase ++ "`"),
           .error ("Request error: " ++ excMsg), .code text]) := by
  have hrs : raiseForStatus status = true := raiseForStatus_true h4 h6
  simp [summarize_clicked, hBase, hText, hrs]

theorem http_error_shows_body_preserves_state_witness :
    summarize_clicked "https://x" "Some article text."
        (.response 500 "500 Server Error: Internal Server Error" "backend traceback body"
          none "") ⟨"previous summary", ""⟩ =
      (⟨"previous summary", ""⟩,
       [.info "Sending request to: `https://x/summarize`",
        .error "Request error: 500 Server Error: Internal Server Error",
        .code "backend traceback body"]) := by
  have h := http_error_shows_body_preserves_state "https://x" "Some article text."
    "500 Server Error: Internal Server Error" "backend traceback body" "" none 500
    ⟨"previous summary", ""⟩ (by decide) (by decide) (by decide) (by decide)
  rw [h]
  decide

/-- C7: for every non-empty summary and question, the constructed Gemini
prompt contains the summary text verbatim and the question text verbatim
as contiguous substrings, being exactly the fixed template with the two
inputs spliced in untransformed and untruncated. -/
theorem prompt_embeds_summary_and_question (s q : String) (hs : s ≠ "") (hq : q ≠ "") :
    List.IsInfix s.data (gemini_prompt s q).data
    ∧ List.IsInfix q.data (gemini_prompt s q).data
    ∧ gemini_prompt s q =
      "\nYou are a helpful assistant answering questions about the following Khmer news summary.\n\nSUMMARY:\n"
      ++ s ++ "\n\nUSER QUESTION:\n" ++ q ++
      "\n\nPlease answer in Khmer and keep the answer short, clear, and directly related to the summary above.\nIf the summary doesn't contain enough information to answer, say that you don't know based on this summary.\n" := by
  refine ⟨?_, ?_, rfl⟩
  · refine ⟨("\nYou are a helpful assistant answering questions about the following Khmer news summary.\n\nSUMMARY:\n").data,
      ("\n\nUSER QUESTION:\n" ++ q ++
        "\n\nPlease answer in Khmer and keep the answer short, clear, and directly related to the summary above.\nIf the summary doesn't contain enough information to answer, say that you don't know based on this summary.\n").data, ?_⟩
    simp [gemini_prompt, string_data_append]
  · refine ⟨("\nYou are a helpful assistant answering questions about the following Khmer news summary.\n\nSUMMARY:\n"
        ++ s ++ "\n\nUSER QUESTION:\n").data,
      ("\n\nPlease answer in Khmer and keep the answer short, clear, and directly related to the summary above.\nIf the summary doesn't contain enough information to answer, say that you don't know based on this summary.\n").data, ?_⟩
    simp [gemini_prompt, string_data_append]

theorem prompt_embeds_summary_and_question_witness :
    List.IsInfix ("សង្ខេបព័ត៌មាន" : String).data
      (gemini_prompt "សង្ខេបព័ត៌មាន" "What happened?").data
    ∧ List.IsInfix ("What happened?" : String).data
      (gemini_prompt "សង្ខេបព័ត៌មាន" "What happened?").data :=
  ⟨(prompt_embeds_summary_and_question "សង្ខេបព័ត៌មាន" "What happened?"
      (by decide) (by decide)).1,
   (prompt_embeds_summary_and_question "សង្ខេបព័ត៌មាន" "What happened?"
      (by decide) (by decide)).2.1⟩

/-- C8: when the provider yields a null reply or an empty text,
`ask_gemini_about_summary` returns the fixed Khmer fallback string as a
normal success value; a provider exception instead surfaces on the error
side, and a success carrying the fallback is never equal to any error. -/
theorem provider_empty_text_yields_fallback (apiKey modelName s q : String) :
    ask_gemini_about_summary apiKey modelName s q (fun _ => .reply none) = .ok geminiFallback
    ∧ ask_gemini_about_summary apiKey modelName s q (fun _ => .reply (some ""))
        = .ok geminiFallback
    ∧ (∀ m, ask_gemini_about_summary apiKey modelName s q (fun _ => .raise m) = .error m)
    ∧ (∀ m, (Except.ok geminiFallback : Except String String) ≠ .error m) := by
  refine ⟨rfl, rfl, fun m => rfl, fun m h => Except.noConfusion h⟩

theorem provider_empty_text_yields_fallback_witness :
    ask_gemini_about_summary "key" "gemini-2.0-flash" "A summary." "A question?"
      (fun _ => .reply none) = .ok geminiFallback :=
  (provider_empty_text_yields_fallback "key" "gemini-2.0-flash" "A summary." "A question?").1

/-- C9: while the stored summary is empty the Q&A section is not rendered
and no provider call can occur; a missing API key or a blank question also
never reaches the provider, and with a summary present those validation
failures are reported — the fixed error for a missing key, the fixed
warning for a blank question — before any provider call. -/
theorem ask_blocked_before_provider_call (storedSummary geminiKey modelName question : String)
    (provider : String → ProviderOutcome) :
    (storedSummary = "" →
      ask_section storedSummary geminiKey modelName question provider = ([], false))
    ∧ (geminiKey = "" →
        (ask_section storedSummary geminiKey modelName question provider).2 = false)
    ∧ (pyStrip question = "" →
        (ask_section storedSummary geminiKey modelName question provider).2 = false)
    ∧ (storedSummary ≠ "" → geminiKey = "" →
        ask_section storedSummary geminiKey modelName question provider =
          ([.error "Please set your Gemini API key (Streamlit Secrets or sidebar)."], false))
    ∧ (storedSummary ≠ "" → geminiKey ≠ "" → pyStrip question = "" →
        ask_section storedSummary geminiKey modelName question provider =
          ([.warning "Please type a question first."], false)) := by
  refine ⟨?_, ?_, ?_, ?_, ?_⟩
  · intro h
    simp [ask_section, h]
  · intro h
    by_cases hs : storedSummary = "" <;> simp [ask_section, hs, h]
  · intro h
    by_cases hs : storedSummary = ""
    · simp [ask_section, hs]
    · by_cases hk : geminiKey = "" <;> simp [ask_section, hs, hk, h]
  · intro hs hk
    simp [ask_section, hs, hk]
  · intro hs hk hq
    simp [ask_section, hs, hk, hq]

theorem ask_blocked_before_provider_call_witness :
    ask_section "" "key" "gemini-2.0-flash" "Why?"
        (fun _ => .reply (some "an answer")) = ([], false)
    ∧ (ask_section "A summary." "" "gemini-2.0-flash" "Why?"
        (fun _ => .reply (some "an answer"))).2 = false
    ∧ (ask_section "A summary." "key" "gemini-2.0-flash" "   "
        (fun _ => .reply (some "an answer"))).2 = false
    ∧ ask_section "A summary." "" "gemini-2.0-flash" "Why?"
        (fun _ => .reply (some "an answer")) =
      ([.error "Please set your Gemini API key (Streamlit Secrets or sidebar)."], false)
    ∧ ask_section "A summary." "key" "gemini-2.0-flash" "   "
        (fun _ => .reply (some "an answer")) =
      ([.warning "Please type a question first."], false) := by
  refine ⟨?_, ?_, ?_, ?_, ?_⟩
  · exact (ask_blocked_before_provider_call "" "key" "gemini-2.0-flash" "Why?"
      (fun _ => .reply (some "an answer"))).1 rfl
  · exact (ask_blocked_before_provider_call "A summary." "" "gemini-2.0-flash" "Why?"
      (fun _ => .reply (some "an answer"))).2.1 rfl
  · exact (ask_blocked_before_provider_call "A summary." "key" "gemini-2.0-flash" "   "
      (fun _ => .reply (some "an answer"))).2.2.1 (by decide)
  · exact (ask_blocked_before_provider_call "A summary." "" "gemini-2.0-flash" "Why?"
      (fun _ => .reply (some "an answer"))).2.2.2.1 (by decide) rfl
  · exact (ask_blocked_before_provider_call "A summary." "key" "gemini-2.0-flash" "   "
      (fun _ => .reply (some "an answer"))).2.2.2.2 (by decide) (by decide) (by decide)

/-- C10: when the fetch fails or the extraction result is empty, the
fetch handler leaves the session state — `input_text` in particular —
unchanged; `input_text` is only ever overwritten with a non-empty
extraction result. -/
theorem failed_fetch_preserves_input_text (url : String) (o : FetchOutcome) (s : SessionState) :
    ((extract_main_text_from_url o).1 = "" → (fetch_clicked_handler url o s).1 = s)
    ∧ ((fetch_clicked_handler url o s).1.input_text ≠ s.input_text →
        (extract_main_text_from_url o).1 ≠ ""
        ∧ (fetch_clicked_handler url o s).1.input_text = (extract_main_text_from_url o).1) := by
  by_cases hu : pyStrip url = ""
  · constructor
    · intro _
      simp [fetch_clicked_handler, hu]
    · intro hne
      exact absurd (by simp [fetch_clicked_handler, hu]) hne
  · by_cases he : (extract_main_text_from_url o).1 = ""
    · constructor
      · intro _
        simp [fetch_clicked_handler, hu, he]
      · intro hne
        exact absurd (by simp [fetch_clicked_handler, hu, he]) hne
    · constructor
      · intro h
        exact absurd h he
      · intro _
        exact ⟨he, by simp [fetch_clicked_handler, hu, he]⟩

theorem failed_fetch_preserves_input_text_witness :
    (fetch_clicked_handler "https://a.example/x" (.failure "timed out")
        ⟨"", "previously pasted text"⟩).1 = ⟨"", "previously pasted text"⟩ :=
  (failed_fetch_preserves_input_text "https://a.example/x" (.failure "timed out")
      ⟨"", "previously pasted text"⟩).1 rfl
